import Mathlib

/-!
# Verification of the group location cache of `location-tracking-service`

Shallow embedding of the core subsystem of the repository: the consistent-hash
shard router (`app/utils/consistent_hash.py`, `app/dependencies/db.py`), the
group cache service and its Redis Lua scripts (`app/services/group_cache.py`),
and the WebSocket fan-out manager (`app/websocket/manager.py`).

Modelling conventions:
* Redis per-group state is a record: the membership set (`member:{uuid}` Redis
  set), the location hash (`location:{uuid}` Redis hash) as an association
  list, and the last TTL set on each of the two keys.  A Redis set/hash key
  exists iff it is non-empty; `EXPIRE` on a non-existent key is a no-op.
* The `timestamp` field of `GroupUpdateLocationRequest` is a Python
  `datetime`.  We model the timezone-aware UTC datetimes produced by the
  documented wire format (numeric unix seconds) at second resolution, as a
  `Nat` epoch.  Python's `str(dt)` renders `"YYYY-MM-DD HH:MM:SS+00:00"` and
  FastAPI's `jsonable_encoder` renders `dt.isoformat()`,
  `"YYYY-MM-DDTHH:MM:SS+00:00"`; both are implemented below over the
  proleptic Gregorian calendar.
* Lua's `tonumber` is modelled on the argument domain that occurs in this
  service (decimal integer numerals, and serialized datetimes on which it
  returns `nil`): whole-string parse of an optionally signed decimal integer
  numeral with surrounding whitespace; anything else is `none`.
* Latitude/longitude floats are only ever carried through (validated by
  pydantic, JSON-encoded, stored, decoded); no arithmetic is performed on
  them, so they are modelled as `Rat`, on which JSON round-tripping is the
  identity.
-/

namespace LocationTracking

/-! ## Decimal digit strings -/

/-- The decimal digit character for `n < 10` (`'0'`..`'9'`). -/
def digitChar (n : Nat) : Char := Char.ofNat (48 + n)

/-- Fuel-driven decimal printer (least significant digit last). -/
def natToDecimalAux : Nat → Nat → List Char
  | 0, _ => []
  | fuel + 1, n =>
      if n < 10 then [digitChar n]
      else natToDecimalAux fuel (n / 10) ++ [digitChar (n % 10)]

/-- The decimal numeral of `n`, as a list of digit characters. -/
def natToDecimal (n : Nat) : List Char := natToDecimalAux (n + 1) n

/-- Zero-pad a numeral on the left to width `w` (Python `%02d` / `%04d`). -/
def padLeft (w : Nat) (ds : List Char) : List Char :=
  List.replicate (w - ds.length) '0' ++ ds

/-- Two-digit zero-padded decimal field. -/
def pad2 (n : Nat) : List Char := padLeft 2 (natToDecimal n)

/-- Four-digit zero-padded decimal field. -/
def pad4 (n : Nat) : List Char := padLeft 4 (natToDecimal n)

/-- A decimal digit character. -/
def isDigitCh (c : Char) : Bool := ('0' ≤ c) && (c ≤ '9')

/-- A character Lua treats as whitespace around a numeral. -/
def isSpaceCh (c : Char) : Bool := c = ' ' || c = '\t' || c = '\n' || c = '\r'

/-- Drop leading whitespace. -/
def dropSpaces : List Char → List Char
  | [] => []
  | c :: cs => if isSpaceCh c then dropSpaces cs else c :: cs

/-- Split off the maximal leading run of decimal digits. -/
def takeDigits : List Char → List Char × List Char
  | [] => ([], [])
  | c :: cs =>
      if isDigitCh c then
        let (ds, rest) := takeDigits cs
        (c :: ds, rest)
      else ([], c :: cs)

/-- Value of a digit character. -/
def digitVal (c : Char) : Nat := c.toNat - 48

/-- Value of a list of digit characters, most significant first. -/
def digitsVal (ds : List Char) : Nat :=
  ds.foldl (fun acc c => 10 * acc + digitVal c) 0

/-- Consume an optional leading sign: `(isNegative, remainder)`. -/
def parseSign : List Char → Bool × List Char
  | [] => (false, [])
  | c :: t =>
      if c = '-' then (true, t)
      else if c = '+' then (false, t)
      else (false, c :: t)

/-- Lua `tonumber` on a string, over the numeral forms this service feeds it:
an optionally signed decimal integer numeral surrounded by whitespace parses
to its value; every other string (in particular every serialized `datetime`)
yields `none`, as Lua requires the whole string to be a numeral. -/
def tonumberChars (cs : List Char) : Option Int :=
  let sg := parseSign (dropSpaces cs)
  let dr := takeDigits sg.2
  if dr.1.isEmpty then none
  else if (dropSpaces dr.2).isEmpty then
    some ((if sg.1 then (-1 : Int) else 1) * (digitsVal dr.1 : Int))
  else none

/-- Lua `tonumber` on a Lean `String`. -/
def tonumber (s : String) : Option Int := tonumberChars s.data

/-! ## Python `datetime` rendering (UTC, second resolution) -/

/-- Civil date from days since the Unix epoch (proleptic Gregorian calendar,
Hinnant's `civil_from_days`, non-negative day counts): `(year, month, day)`. -/
def civilFromDays (days : Nat) : Nat × Nat × Nat :=
  let z := days + 719468
  let era := z / 146097
  let doe := z % 146097
  let yoe := (doe - doe / 1460 + doe / 36524 - doe / 146096) / 365
  let y := yoe + era * 400
  let doy := doe - (365 * yoe + yoe / 4 - yoe / 100)
  let mp := (5 * doy + 2) / 153
  let d := doy - (153 * mp + 2) / 5 + 1
  let m := if mp < 10 then mp + 3 else mp - 9
  (if m ≤ 2 then y + 1 else y, m, d)

/-- Characters of the rendering of the aware-UTC `datetime` at Unix second
`t`, with `sep` between date and time: `YYYY-MM-DD{sep}HH:MM:SS+00:00`. -/
def dateTimeChars (sep : Char) (t : Nat) : List Char :=
  pad4 (civilFromDays (t / 86400)).1 ++
    ('-' :: (pad2 (civilFromDays (t / 86400)).2.1 ++
      ('-' :: (pad2 (civilFromDays (t / 86400)).2.2 ++
        (sep :: (pad2 (t % 86400 / 3600) ++
          (':' :: (pad2 (t % 86400 % 3600 / 60) ++
            (':' :: (pad2 (t % 86400 % 60) ++
              ['+', '0', '0', ':', '0', '0']))))))))))

/-- Python `str(dt)` for the aware-UTC datetime at Unix second `t`
(space-separated, as passed to the Lua script as `ARGV[3]`). -/
def pyDatetimeStr (t : Nat) : String := String.mk (dateTimeChars ' ' t)

/-- `dt.isoformat()` for the aware-UTC datetime at Unix second `t`, which is
what FastAPI's `jsonable_encoder` produces inside `serializable_dict` and thus
what is stored in the location hash's JSON payloads. -/
def isoDatetimeStr (t : Nat) : String := String.mk (dateTimeChars 'T' t)

/-! ## Group cache service (`app/services/group_cache.py`)

Per-group Redis state.  `memberTTL`/`locationTTL` record the TTL most
recently set by `EXPIRE` on the respective key; the field is meaningful only
while the key exists (a Redis set/hash key exists iff it is non-empty, so
`EXPIRE` on an empty key is a no-op and deleting the last element drops the
key together with its TTL). -/

/-- A stored location payload: the JSON object
`{"user_uuid": ..., "longitude": ..., "latitude": ..., "timestamp": ...}`
built by `update_location` from `serializable_dict()`.  `timestamp` is the
JSON-serialized form of the request's `datetime` (an ISO 8601 string).
`json.dumps`/`json.loads`/`cjson.decode` round-trip such objects exactly, so
the hash is modelled as storing the payload itself. -/
structure Payload where
  user_uuid : String
  longitude : Rat
  latitude : Rat
  timestamp : String
deriving DecidableEq, Repr

/-- `GroupUpdateLocationRequest` (`app/schemas/group.py`): validated float
coordinates and a `datetime` timestamp, modelled at second resolution as a
non-negative Unix epoch (the documented wire form is numeric unix seconds,
which pydantic parses into an aware-UTC `datetime`). -/
structure GroupUpdateLocationRequest where
  longitude : Rat
  latitude : Rat
  timestamp : Nat
deriving DecidableEq, Repr

/-- Per-group cached state on the selected shard. -/
structure GroupState where
  members : Finset String
  locations : List (String × Payload)
  memberTTL : Int
  locationTTL : Int
deriving DecidableEq

/-- `settings.GROUP_LOCATION_TTL` (`app/config.py`, default 600). -/
def GROUP_LOCATION_TTL : Int := 600

/-- The string the Python service passes for the TTL script argument:
`str(settings.GROUP_LOCATION_TTL)`. -/
def ttlArgStr : String := "600"

/-- Redis `HGET`: value of `field` in the hash, if present. -/
def hget : List (String × Payload) → String → Option Payload
  | [], _ => none
  | (k, v) :: t, field => if k = field then some v else hget t field

/-- Redis `HSET`: overwrite the value of `field`, or append a new field. -/
def hset : List (String × Payload) → String → Payload → List (String × Payload)
  | [], field, v => [(field, v)]
  | (k, w) :: t, field, v =>
      if k = field then (field, v) :: t else (k, w) :: hset t field v

/-- Redis `HDEL`: drop `field` from the hash. -/
def hdel : List (String × Payload) → String → List (String × Payload)
  | [], _ => []
  | (k, v) :: t, field =>
      if k = field then hdel t field else (k, v) :: hdel t field

/-- Redis `EXPIRE` on the membership set key: sets the TTL, but is a no-op
when the key does not exist (empty set). -/
def expireMember (st : GroupState) (ttl : Int) : GroupState :=
  if st.members = ∅ then st else { st with memberTTL := ttl }

/-- Redis `EXPIRE` on the location hash key: no-op when the hash is empty. -/
def expireLocation (st : GroupState) (ttl : Int) : GroupState :=
  if st.locations.isEmpty then st else { st with locationTTL := ttl }

/-- `GroupCacheService.add_member`: the Lua script
`SADD key member; EXPIRE key ttl` with `ttl = tonumber(str(GROUP_LOCATION_TTL))`
(the numeral `"600"`, see `tonumber_ttlArg`).  After `SADD` the set is
non-empty, so the `EXPIRE` always applies. -/
def add_member (st : GroupState) (user_uuid : String) : GroupState :=
  expireMember { st with members := insert user_uuid st.members } GROUP_LOCATION_TTL

/-- `GroupCacheService.sync_group`: with the membership list read from the
durable store as input; `if not members: return`, else a Lua script `SADD`s
each member (the Python side deduplicates via `set(members)`, modelled by
`List.toFinset`) and `EXPIRE`s the set key. -/
def sync_group (st : GroupState) (members : List String) : GroupState :=
  if members.isEmpty then st
  else expireMember { st with members := st.members ∪ members.toFinset }
    GROUP_LOCATION_TTL

/-- `GroupCacheService.is_member`: Redis `SISMEMBER`. -/
def is_member (st : GroupState) (user_uuid : String) : Bool :=
  user_uuid ∈ st.members

/-- `GroupCacheService.is_exists`: Redis `EXISTS` on the membership set key;
a set key exists iff the set is non-empty. -/
def is_exists (st : GroupState) : Bool :=
  st.members ≠ ∅

/-- `GroupCacheService.remove_member`: `SREM` the member, `HDEL` that member's
location entry, and report whether `SREM` removed anything (`removed == 1`).
Neither command touches any TTL. -/
def remove_member (st : GroupState) (user_uuid : String) : GroupState × Bool :=
  ({ st with
      members := st.members.erase user_uuid
      locations := hdel st.locations user_uuid },
    decide (user_uuid ∈ st.members))

/-- `GroupCacheService.remove_group`: `DEL` both keys. -/
def remove_group (_st : GroupState) : GroupState :=
  { members := ∅, locations := [], memberTTL := 0, locationTTL := 0 }

/-- Outcome of a Redis Lua script: the value returned to the caller, or a
script runtime error (raised to the caller as a `ResponseError`; effects
performed before the error persist in the returned state). -/
inductive ScriptOut where
  | ok (res : Int)
  | err
deriving DecidableEq, Repr

/-- The freshness check shared by both update scripts:
`current = HGET location_key field`; absent → write (`some false`);
`current_ts = tonumber(current["timestamp"])` a number and `new_ts` a number →
compare (`some (current_ts ≥ new_ts)`, `true` = discard); `current_ts` a
number but `new_ts` `nil` → Lua error `none` ("attempt to compare number with
nil"); `current_ts` `nil` → the `if` condition falls through (`some false`). -/
def staleCheck (st : GroupState) (field : String) (new_ts : Option Int) :
    Option Bool :=
  match hget st.locations field with
  | none => some false
  | some current =>
      match tonumber current.timestamp, new_ts with
      | some current_ts, some n => some (current_ts ≥ n)
      | some _, none => none
      | none, _ => some false

/-- The Lua script of `GroupCacheService.update_location`, acting on the
group's state with arguments `field = ARGV[1]`, `payload = ARGV[2]` (already
decoded), `ARGV[3]` the timestamp string, `ARGV[4]` the TTL string:

* `new_ts = tonumber(ARGV[3])`, `ttl = tonumber(ARGV[4])`;
* `current = HGET location_key field`; if present and
  `tonumber(current["timestamp"])` is a number, compare it with `new_ts`
  (`current_ts >= new_ts` → return `0` without writing; comparing a number
  with `nil` is a Lua runtime error); if `current_ts` is `nil` the condition
  falls through;
* otherwise `HSET`, `EXPIRE` both keys, return `1` (an `EXPIRE` with a `nil`
  TTL would error after the `HSET`; unreachable from the service, which
  always passes the numeral `"600"`). -/
def luaUpdateLocation (st : GroupState) (field : String) (payload : Payload)
    (tsArg ttlArg : String) : GroupState × ScriptOut :=
  match staleCheck st field (tonumber tsArg) with
  | none => (st, .err)
  | some true => (st, .ok 0)
  | some false =>
      let st₁ := { st with locations := hset st.locations field payload }
      match tonumber ttlArg with
      | none => (st₁, .err)
      | some t => (expireMember (expireLocation st₁ t) t, .ok 1)

/-- The payload dict `{"user_uuid": user_uuid, **location_data.serializable_dict()}`:
`serializable_dict` JSON-encodes the `datetime` via `jsonable_encoder` as
`isoformat()`. -/
def mkPayload (user_uuid : String) (loc : GroupUpdateLocationRequest) : Payload :=
  { user_uuid := user_uuid
    longitude := loc.longitude
    latitude := loc.latitude
    timestamp := isoDatetimeStr loc.timestamp }

/-- `GroupCacheService.update_location`: runs the Lua script with
`ARGV[3] = str(location_data.timestamp)` (Python's rendering of the
`datetime`, never a numeral) and `ARGV[4] = str(settings.GROUP_LOCATION_TTL)`.
The Python wrapper discards the script's return value; we expose it as the
operation's outcome (`0` = "not applied", `1` = applied). -/
def update_location (st : GroupState) (user_uuid : String)
    (loc : GroupUpdateLocationRequest) : GroupState × ScriptOut :=
  luaUpdateLocation st user_uuid (mkPayload user_uuid loc)
    (pyDatetimeStr loc.timestamp) ttlArgStr

/-- The Lua script of `GroupCacheService.update_location_and_publish`:
identical to `luaUpdateLocation` except that the write path additionally
`PUBLISH`es the payload to the group's channel before returning `1`.  The
middle component lists the messages published to the channel. -/
def luaUpdateLocationAndPublish (st : GroupState) (field : String)
    (payload : Payload) (tsArg ttlArg : String) :
    GroupState × List Payload × ScriptOut :=
  match staleCheck st field (tonumber tsArg) with
  | none => (st, [], .err)
  | some true => (st, [], .ok 0)
  | some false =>
      let st₁ := { st with locations := hset st.locations field payload }
      match tonumber ttlArg with
      | none => (st₁, [], .err)
      | some t => (expireMember (expireLocation st₁ t) t, [payload], .ok 1)

/-- `GroupCacheService.update_location_and_publish`: same marshalling as
`update_location`. -/
def update_location_and_publish (st : GroupState) (user_uuid : String)
    (loc : GroupUpdateLocationRequest) : GroupState × List Payload × ScriptOut :=
  luaUpdateLocationAndPublish st user_uuid (mkPayload user_uuid loc)
    (pyDatetimeStr loc.timestamp) ttlArgStr

/-- `GroupCacheService.get_group_locations`: `HGETALL` the location hash and
`json.loads` each stored value. -/
def get_group_locations (st : GroupState) : List Payload :=
  st.locations.map Prod.snd

/-! ## Fan-out connection manager (`app/websocket/manager.py`)

`ConnectionManager.active_connections[key]` is a Python `set` of live
WebSocket handles; we model the per-group registry as a duplicate-free list
in iteration order and a handle type `α` with decidable equality.  Whether
`ws.send_json(message)` raises for a given handle is abstracted as a
predicate `sendOk`. -/

/-- The loop body of `ConnectionManager.broadcast`: iterate the snapshot
`list(self.active_connections[key])`, try to send to each handle, and on an
exception `disconnect` (set-discard) that handle from the live registry.
Returns the handles attempted and the final registry. -/
def broadcastAux {α : Type} [DecidableEq α] (sendOk : α → Bool) :
    List α → List α → List α × List α
  | [], reg => ([], reg)
  | ws :: rest, reg =>
      (ws :: (broadcastAux sendOk rest (if sendOk ws then reg else reg.erase ws)).1,
        (broadcastAux sendOk rest (if sendOk ws then reg else reg.erase ws)).2)

/-- `ConnectionManager.broadcast` for one group: the snapshot taken at entry
is the registry itself. -/
def broadcast {α : Type} [DecidableEq α] (conns : List α) (sendOk : α → Bool) :
    List α × List α :=
  broadcastAux sendOk conns conns

/-! ## Consistent-hash shard router (`app/utils/consistent_hash.py`,
`app/dependencies/db.py`) -/

/-- UTF-8 encoding of one character (Python `str.encode("utf8")`, which is
what `mmh3.hash` hashes). -/
def utf8EncodeChar (c : Char) : List Nat :=
  let n := c.toNat
  if n < 128 then [n]
  else if n < 2048 then
    [192 + n / 64, 128 + n % 64]
  else if n < 65536 then
    [224 + n / 4096, 128 + n / 64 % 64, 128 + n % 64]
  else
    [240 + n / 262144, 128 + n / 4096 % 64, 128 + n / 64 % 64, 128 + n % 64]

/-- UTF-8 bytes of a string. -/
def stringBytes (s : String) : List Nat :=
  (s.data.map utf8EncodeChar).flatten

/-- Truncate to 32 bits. -/
def mask32 (n : Nat) : Nat := n % 4294967296

/-- 32-bit rotate left of `x < 2^32` by `r`. -/
def rotl32 (x r : Nat) : Nat := mask32 (x * 2 ^ r) + x / 2 ^ (32 - r)

/-- MurmurHash3 x86-32 block mix of one 32-bit lane. -/
def mmMix (k : Nat) : Nat :=
  let k := mask32 (k * 3432918353)
  let k := rotl32 k 15
  mask32 (k * 461845907)

/-- MurmurHash3 x86-32 state update for one full 4-byte block. -/
def mmStep (h k : Nat) : Nat :=
  let h := Nat.xor h (mmMix k)
  let h := rotl32 h 13
  mask32 (h * 5 + 3864292196)

/-- Consume the full little-endian 4-byte blocks; return the state and tail. -/
def mmBody (h : Nat) : List Nat → Nat × List Nat
  | b0 :: b1 :: b2 :: b3 :: rest =>
      mmBody (mmStep h (b0 + b1 * 256 + b2 * 65536 + b3 * 16777216)) rest
  | tail => (h, tail)

/-- Mix the 1–3 trailing bytes, if any. -/
def mmTail (h : Nat) (tail : List Nat) : Nat :=
  match tail with
  | [] => h
  | _ => Nat.xor h (mmMix (tail.foldr (fun b acc => acc * 256 + b) 0))

/-- MurmurHash3 x86-32 finalization mix. -/
def fmix32 (h : Nat) : Nat :=
  let h := Nat.xor h (h / 65536)
  let h := mask32 (h * 2246822507)
  let h := Nat.xor h (h / 8192)
  let h := mask32 (h * 3266489909)
  Nat.xor h (h / 65536)

/-- MurmurHash3 x86-32 of a byte list (unsigned result). -/
def murmur3_32 (bytes : List Nat) (seed : Nat) : Nat :=
  let (h, tail) := mmBody seed bytes
  let h := mmTail h tail
  let h := Nat.xor h (mask32 bytes.length)
  fmix32 h

/-- `mmh3.hash(key)`: MurmurHash3 x86-32 of the UTF-8 bytes, seed 0, returned
as a signed 32-bit integer. -/
def mmh3_hash (key : String) : Int :=
  let u := murmur3_32 (stringBytes key) 0
  if u < 2147483648 then (u : Int) else (u : Int) - 4294967296

instance {ε α : Type} [DecidableEq ε] [DecidableEq α] : DecidableEq (Except ε α) :=
  fun x y =>
    match x, y with
    | .ok a, .ok b =>
        if h : a = b then .isTrue (congrArg Except.ok h)
        else .isFalse (fun hh => h (Except.ok.inj hh))
    | .error a, .error b =>
        if h : a = b then .isTrue (congrArg Except.error h)
        else .isFalse (fun hh => h (Except.error.inj hh))
    | .ok _, .error _ => .isFalse (fun hh => Except.noConfusion hh)
    | .error _, .ok _ => .isFalse (fun hh => Except.noConfusion hh)

/-- `get_server_index` (`app/utils/consistent_hash.py`): `ValueError` when
`num_servers < 1`, else `(mmh3.hash(key) & 0xFFFFFFFF) % num_servers`
(Python `&`/`%` on a possibly negative left operand, i.e. euclidean mod). -/
def get_server_index (key : String) (num_servers : Int) : Except String Int :=
  if num_servers < 1 then .error "Number of servers must be at least 1"
  else .ok ((mmh3_hash key).emod 4294967296 % num_servers)

/-- Failure modes of `get_redis` (`app/dependencies/db.py`):
`noClients` — empty pool (HTTP 503 before any probing);
`attributeError` — the `AttributeError` raised from the connection-failure
handler (see `get_redis`);
`noAvailableRedisServers` — the `NoAvailableRedisServers` exception after the
loop (unreachable in the source, kept for the error taxonomy). -/
inductive RedisFailure where
  | noClients
  | attributeError
  | noAvailableRedisServers
deriving DecidableEq, Repr

/-- `get_redis` (`app/dependencies/db.py`), from the shard-selection point on
(the UUID-format guard raises HTTP 400 upstream of any selection and does not
involve the pool); the initialized `redis_clients` pool is abstracted to each
client's reachability (whether `ping` succeeds).

The `while attempts < num_servers` loop pings the client at
`get_server_index(group_uuid, num_servers)`.  On `RedisConnectionError` /
`TimeoutError` the except handler first evaluates
`settings.REDIS_URLs[server_idx]` for its warning message — but the
`Settings` model (`app/config.py`) defines only `REDIS_URLS`, so this raises
`AttributeError` out of `get_redis` before `server_idx` is advanced or
`attempts` is incremented.  Hence at most one probe ever happens, and the
`(server_idx + 1) % num_servers` advance and the post-loop
`NoAvailableRedisServers` raise are dead code.  Returns the outcome together
with the list of probed shard indices. -/
def get_redis (pool : List Bool) (group_uuid : String) :
    Except RedisFailure Nat × List Nat :=
  if pool.isEmpty then (.error .noClients, [])
  else
    match get_server_index group_uuid (pool.length : Int) with
    | .error _ => (.error .noClients, [])
    | .ok i =>
        if pool.getD i.toNat false then (.ok i.toNat, [i.toNat])
        else (.error .attributeError, [i.toNat])

/-! ## Supporting lemmas -/

theorem isDigitCh_digitChar {n : Nat} (h : n < 10) : isDigitCh (digitChar n) = true := by
  interval_cases n <;> decide

theorem natToDecimalAux_digits :
    ∀ fuel n : Nat, ∀ c ∈ natToDecimalAux fuel n, isDigitCh c = true := by
  intro fuel
  induction fuel with
  | zero => intro n c hc; simp [natToDecimalAux] at hc
  | succ f ih =>
      intro n c hc
      rw [natToDecimalAux] at hc
      split at hc
      · next h =>
          rcases List.mem_singleton.1 hc with rfl
          exact isDigitCh_digitChar h
      · rcases List.mem_append.1 hc with h1 | h2
        · exact ih _ _ h1
        · rcases List.mem_singleton.1 h2 with rfl
          exact isDigitCh_digitChar (Nat.mod_lt _ (by norm_num))

theorem natToDecimalAux_ne_nil (f n : Nat) : natToDecimalAux (f + 1) n ≠ [] := by
  rw [natToDecimalAux]
  split
  · simp
  · simp

theorem pad4_digits (n : Nat) : ∀ c ∈ pad4 n, isDigitCh c = true := by
  intro c hc
  rw [pad4, padLeft] at hc
  rcases List.mem_append.1 hc with h | h
  · rcases List.eq_of_mem_replicate h with rfl
    decide
  · exact natToDecimalAux_digits _ _ c h

theorem pad4_ne_nil (n : Nat) : pad4 n ≠ [] := by
  rw [pad4, padLeft]
  intro h
  exact natToDecimalAux_ne_nil _ _ (List.append_eq_nil.1 h).2

theorem not_space_of_digit {c : Char} (h : isDigitCh c = true) : isSpaceCh c = false := by
  rw [isDigitCh, Bool.and_eq_true, decide_eq_true_eq, decide_eq_true_eq] at h
  rw [isSpaceCh]
  have h1 : c ≠ ' ' := fun e => absurd (e ▸ h.1) (by decide)
  have h2 : c ≠ '\t' := fun e => absurd (e ▸ h.1) (by decide)
  have h3 : c ≠ '\n' := fun e => absurd (e ▸ h.1) (by decide)
  have h4 : c ≠ '\r' := fun e => absurd (e ▸ h.1) (by decide)
  simp [h1, h2, h3, h4]

theorem dropSpaces_cons {c : Char} (h : isSpaceCh c = false) (l : List Char) :
    dropSpaces (c :: l) = c :: l := by
  rw [dropSpaces, h]
  simp

theorem parseSign_of_digit {c : Char} (h : isDigitCh c = true) (l : List Char) :
    parseSign (c :: l) = (false, c :: l) := by
  rw [isDigitCh, Bool.and_eq_true, decide_eq_true_eq, decide_eq_true_eq] at h
  have h1 : c ≠ '-' := fun e => absurd (e ▸ h.1) (by decide)
  have h2 : c ≠ '+' := fun e => absurd (e ▸ h.1) (by decide)
  rw [parseSign]
  simp [h1, h2]

theorem takeDigits_digits_prefix :
    ∀ ds : List Char, (∀ c ∈ ds, isDigitCh c = true) →
      ∀ {c : Char}, isDigitCh c = false → ∀ rest,
        takeDigits (ds ++ c :: rest) = (ds, c :: rest) := by
  intro ds
  induction ds with
  | nil => intro _ c hc rest; simp [takeDigits, hc]
  | cons d t ih =>
      intro hall c hc rest
      have hd : isDigitCh d = true := hall d (List.mem_cons_self d t)
      rw [List.cons_append, takeDigits]
      rw [ih (fun x hx => hall x (List.mem_cons_of_mem d hx)) hc rest]
      simp [hd]

theorem tonumberChars_digits_dash (ds rest : List Char) (hne : ds ≠ [])
    (hall : ∀ c ∈ ds, isDigitCh c = true) :
    tonumberChars (ds ++ '-' :: rest) = none := by
  obtain ⟨d, t, rfl⟩ := List.exists_cons_of_ne_nil hne
  have hd : isDigitCh d = true := hall d (List.mem_cons_self d t)
  have hds : dropSpaces ((d :: t) ++ '-' :: rest) = (d :: t) ++ '-' :: rest := by
    rw [List.cons_append]
    exact dropSpaces_cons (not_space_of_digit hd) _
  have hps : parseSign ((d :: t) ++ '-' :: rest) = (false, (d :: t) ++ '-' :: rest) := by
    rw [List.cons_append]
    exact parseSign_of_digit hd _
  have htd := takeDigits_digits_prefix (d :: t) hall (c := '-') (by decide) rest
  have hsp : isSpaceCh '-' = false := by decide
  simp only [tonumberChars, hds, hps, htd]
  simp [dropSpaces, hsp]

theorem tonumber_isoDatetimeStr (t : Nat) : tonumber (isoDatetimeStr t) = none := by
  show tonumberChars (dateTimeChars 'T' t) = none
  rw [dateTimeChars]
  exact tonumberChars_digits_dash _ _ (pad4_ne_nil _) (pad4_digits _)

theorem tonumber_ttlArg : tonumber ttlArgStr = some GROUP_LOCATION_TTL := by decide

theorem expireMember_members (st : GroupState) (t : Int) :
    (expireMember st t).members = st.members := by
  rw [expireMember]; split <;> rfl

theorem expireMember_locations (st : GroupState) (t : Int) :
    (expireMember st t).locations = st.locations := by
  rw [expireMember]; split <;> rfl

theorem expireLocation_members (st : GroupState) (t : Int) :
    (expireLocation st t).members = st.members := by
  rw [expireLocation]; split <;> rfl

theorem expireLocation_locations (st : GroupState) (t : Int) :
    (expireLocation st t).locations = st.locations := by
  rw [expireLocation]; split <;> rfl

theorem expireMember_memberTTL (st : GroupState) (t : Int) (h : st.members ≠ ∅) :
    (expireMember st t).memberTTL = t := by
  rw [expireMember, if_neg h]

theorem expireLocation_memberTTL (st : GroupState) (t : Int) :
    (expireLocation st t).memberTTL = st.memberTTL := by
  rw [expireLocation]; split <;> rfl

theorem hget_hset_self (l : List (String × Payload)) (k : String) (v : Payload) :
    hget (hset l k v) k = some v := by
  induction l with
  | nil => simp [hset, hget]
  | cons kv t ih =>
      obtain ⟨q, w⟩ := kv
      by_cases h : q = k
      · subst h; simp [hset, hget]
      · simp [hset, hget, h, ih]

theorem mem_values_hset (l : List (String × Payload)) (k : String) (v : Payload) :
    v ∈ (hset l k v).map Prod.snd := by
  induction l with
  | nil => simp [hset]
  | cons kv t ih =>
      obtain ⟨q, w⟩ := kv
      by_cases h : q = k
      · subst h; simp [hset]
      · rw [hset, if_neg h, List.map_cons]
        exact List.mem_cons_of_mem _ ih

theorem hget_hdel_self (l : List (String × Payload)) (k : String) :
    hget (hdel l k) k = none := by
  induction l with
  | nil => simp [hdel, hget]
  | cons kv t ih =>
      obtain ⟨q, w⟩ := kv
      by_cases h : q = k
      · rw [hdel, if_pos h]; exact ih
      · rw [hdel, if_neg h, hget, if_neg h]; exact ih

theorem staleCheck_of_stored_nonnumeric (st : GroupState) (field : String)
    (nt : Option Int)
    (hcur : ∀ p, hget st.locations field = some p → tonumber p.timestamp = none) :
    staleCheck st field nt = some false := by
  rw [staleCheck]
  cases h : hget st.locations field with
  | none => rfl
  | some p => simp only [hcur p h]

theorem update_location_writes (st : GroupState) (u : String)
    (loc : GroupUpdateLocationRequest)
    (hcur : ∀ p, hget st.locations u = some p → tonumber p.timestamp = none) :
    update_location st u loc =
      (expireMember (expireLocation
          { st with locations := hset st.locations u (mkPayload u loc) }
          GROUP_LOCATION_TTL) GROUP_LOCATION_TTL, .ok 1) := by
  rw [update_location, luaUpdateLocation,
    staleCheck_of_stored_nonnumeric st u _ hcur, tonumber_ttlArg]

theorem update_location_applied_memberTTL (st : GroupState) (u : String)
    (loc : GroupUpdateLocationRequest) (hm : st.members ≠ ∅)
    (h : (update_location st u loc).2 = .ok 1) :
    (update_location st u loc).1.memberTTL = GROUP_LOCATION_TTL := by
  rw [update_location, luaUpdateLocation, tonumber_ttlArg] at h ⊢
  cases hs : staleCheck st u (tonumber (pyDatetimeStr loc.timestamp)) with
  | none => rw [hs] at h; simp at h
  | some b =>
      cases b
      · exact expireMember_memberTTL _ _ (by rw [expireLocation_members]; exact hm)
      · rw [hs] at h; simp at h


theorem broadcastAux_fst {α : Type} [DecidableEq α] (sendOk : α → Bool) :
    ∀ snapshot reg : List α, (broadcastAux sendOk snapshot reg).1 = snapshot := by
  intro snapshot
  induction snapshot with
  | nil => intro reg; rfl
  | cons w rest ih => intro reg; rw [broadcastAux]; simp [ih]

theorem broadcastAux_snd {α : Type} [DecidableEq α] (sendOk : α → Bool) :
    ∀ snapshot reg : List α, reg.Nodup →
      (broadcastAux sendOk snapshot reg).2
        = reg.filter (fun x => sendOk x || !(snapshot.contains x)) := by
  intro snapshot
  induction snapshot with
  | nil =>
      intro reg _
      simp only [broadcastAux]
      symm
      rw [List.filter_eq_self]
      intro a _
      simp
  | cons w rest ih =>
      intro reg hnd
      rw [broadcastAux]
      cases hw : sendOk w with
      | true =>
          simp only [hw, if_true]
          rw [ih reg hnd]
          refine List.filter_congr ?_
          intro x hx
          by_cases hsx : sendOk x
          · simp [hsx]
          · have hxw : x ≠ w := fun e => hsx (e ▸ hw)
            simp [hsx, List.contains_cons, hxw]
      | false =>
          simp only [hw, Bool.false_eq_true, if_false]
          rw [ih (reg.erase w) (hnd.erase w),
            List.Nodup.erase_eq_filter hnd w, List.filter_filter]
          refine List.filter_congr ?_
          intro x hx
          by_cases hxw : x = w
          · subst hxw
            simp [hw, List.contains_cons]
          · simp [List.contains_cons, hxw]

/-! ## Claim theorems -/

/-- C1: the spec claims `updateLocation` is a compare-and-swap on timestamp —
with a stored record whose timestamp is ≥ the new one, the stored record is
left unchanged and the call returns "not applied".  The code violates this:
the script compares `tonumber(ARGV[3])` where Python passes
`str(location_data.timestamp)`, the rendering of a `datetime`
(`"1970-01-01 00:01:40+00:00"`), and stores timestamps as ISO 8601 strings,
so both `tonumber` calls yield `nil` and the guard never fires.  Evaluated at
the failing input: after writing timestamp 100, an update carrying the older
timestamp 50 is applied (script returns 1) and overwrites the stored
record. -/
theorem update_location_stale_write_applied :
    (let st0 : GroupState :=
      { members := {"u1"}, locations := [], memberTTL := 600, locationTTL := 600 };
     let r100 : GroupUpdateLocationRequest :=
      { longitude := 106, latitude := 10, timestamp := 100 };
     let r50 : GroupUpdateLocationRequest :=
      { longitude := 107, latitude := 11, timestamp := 50 };
     (update_location st0 "u1" r100).2 = .ok 1
     ∧ (update_location st0 "u1" r100).1.locations
        = [("u1",
            { user_uuid := "u1", longitude := 106, latitude := 10,
              timestamp := "1970-01-01T00:01:40+00:00" })]
     ∧ (update_location (update_location st0 "u1" r100).1 "u1" r50).2 = .ok 1
     ∧ (update_location (update_location st0 "u1" r100).1 "u1" r50).1.locations
        = [("u1",
            { user_uuid := "u1", longitude := 107, latitude := 11,
              timestamp := "1970-01-01T00:00:50+00:00" })]) := by decide

/-- C2: the spec claims last-writer-wins by timestamp: updates with
`t1 < t2` end with `t2`'s payload in either arrival order, the stale second
call reports not-applied, and `listLocations` still shows the newer record.
Evaluated at the failing arrival order (`t2 = 100` first, then `t1 = 50`):
the second call returns 1 ("applied") and `get_group_locations` shows
`t1`'s payload, which differs from `t2`'s. -/
theorem update_location_monotonicity_violated :
    (let st0 : GroupState :=
      { members := {"u1"}, locations := [], memberTTL := 600, locationTTL := 600 };
     let r100 : GroupUpdateLocationRequest :=
      { longitude := 106, latitude := 10, timestamp := 100 };
     let r50 : GroupUpdateLocationRequest :=
      { longitude := 107, latitude := 11, timestamp := 50 };
     (update_location (update_location st0 "u1" r100).1 "u1" r50).2 = .ok 1
     ∧ get_group_locations
          (update_location (update_location st0 "u1" r100).1 "u1" r50).1
        = [{ user_uuid := "u1", longitude := 107, latitude := 11,
                timestamp := "1970-01-01T00:00:50+00:00" }]
     ∧ ({ user_uuid := "u1", longitude := 107, latitude := 11,
             timestamp := "1970-01-01T00:00:50+00:00" } : Payload)
        ≠ mkPayload "u1" r100) := by decide

/-- C3: the spec claims `updateLocationAndPublish` performs the same
timestamp compare-and-swap and publishes only an applied (fresh) write.  The
script's check is disabled exactly as in `update_location` (serialized
datetimes are not numerals), so a stale write is both applied and published:
after writing timestamp 100, the publish variant at the older timestamp 50
returns 1 and publishes the stale payload to the group channel. -/
theorem update_location_and_publish_stale_published :
    (let st0 : GroupState :=
      { members := {"u1"}, locations := [], memberTTL := 600, locationTTL := 600 };
     let r100 : GroupUpdateLocationRequest :=
      { longitude := 106, latitude := 10, timestamp := 100 };
     let r50 : GroupUpdateLocationRequest :=
      { longitude := 107, latitude := 11, timestamp := 50 };
     let st1 := (update_location_and_publish st0 "u1" r100).1;
     (update_location_and_publish st0 "u1" r100).2.2 = .ok 1
     ∧ (update_location_and_publish st1 "u1" r50).2.2 = .ok 1
     ∧ (update_location_and_publish st1 "u1" r50).2.1
        = [{ user_uuid := "u1", longitude := 107, latitude := 11,
                timestamp := "1970-01-01T00:00:50+00:00" }]) := by decide

/-- C4 counterexample: the claim says every mutating operation — including
`removeMember` — refreshes the membership set's TTL to the configured window.
`remove_member` only issues `SREM` and `HDEL`, neither of which touches a
TTL: removing `"u1"` from a state whose membership TTL is 5 leaves the TTL
at 5 (≠ 600) even though the removal occurred and the set still exists. -/
theorem remove_member_ttl_counterexample :
    ((remove_member
        { members := {"u1", "u2"}, locations := [], memberTTL := 5,
          locationTTL := 5 } "u1").2 = true)
    ∧ ((remove_member
        { members := {"u1", "u2"}, locations := [], memberTTL := 5,
          locationTTL := 5 } "u1").1.memberTTL = 5)
    ∧ ((5 : Int) ≠ GROUP_LOCATION_TTL) := by decide

/-- C4 (amended): `addMember`, `syncGroup` (with a non-empty membership list)
and an applied `updateLocation` (while the membership key exists) refresh the
membership set's TTL to the configured window; `removeMember` leaves the TTL
unchanged. -/
theorem mutating_ops_ttl_refresh (st : GroupState) (u : String)
    (ms : List String) (r : GroupUpdateLocationRequest) :
    (add_member st u).memberTTL = GROUP_LOCATION_TTL
    ∧ (ms ≠ [] → (sync_group st ms).memberTTL = GROUP_LOCATION_TTL)
    ∧ (st.members ≠ ∅ → (update_location st u r).2 = .ok 1 →
        (update_location st u r).1.memberTTL = GROUP_LOCATION_TTL)
    ∧ (remove_member st u).1.memberTTL = st.memberTTL := by
  refine ⟨?_, ?_, ?_, ?_⟩
  · rw [add_member]
    exact expireMember_memberTTL _ _ (Finset.insert_ne_empty u st.members)
  · intro hms
    rw [sync_group, if_neg (by simpa using hms)]
    refine expireMember_memberTTL _ _ ?_
    obtain ⟨m, mrest, rfl⟩ := List.exists_cons_of_ne_nil hms
    have hm : m ∈ st.members ∪ (m :: mrest).toFinset :=
      Finset.mem_union_right _ (by simp)
    exact Finset.ne_empty_of_mem hm
  · exact update_location_applied_memberTTL st u r
  · rfl

/-- C4 witness: the amended claim at a concrete state with TTL 5. -/
theorem mutating_ops_ttl_refresh_witness :
    (add_member
      { members := {"u1"}, locations := [], memberTTL := 5, locationTTL := 5 }
      "u2").memberTTL = GROUP_LOCATION_TTL
    ∧ (sync_group
        { members := {"u1"}, locations := [], memberTTL := 5, locationTTL := 5 }
        ["u2"]).memberTTL = GROUP_LOCATION_TTL
    ∧ (update_location
        { members := {"u1"}, locations := [], memberTTL := 5, locationTTL := 5 }
        "u2" { longitude := 106, latitude := 10, timestamp := 100 }).1.memberTTL
       = GROUP_LOCATION_TTL
    ∧ (remove_member
        { members := {"u1"}, locations := [], memberTTL := 5, locationTTL := 5 }
        "u2").1.memberTTL = 5 := by
  obtain ⟨h1, h2, h3, h4⟩ := mutating_ops_ttl_refresh
    { members := {"u1"}, locations := [], memberTTL := 5, locationTTL := 5 }
    "u2" ["u2"] { longitude := 106, latitude := 10, timestamp := 100 }
  exact ⟨h1, h2 (by decide), h3 (by decide) (by decide), h4⟩

/-- C5: the spec claims shard selection probes the primary index, advances
`(index + 1) % shardCount` on each unreachable shard, makes at most
`shardCount` probes, and with every shard unreachable fails with
`NoAvailableRedisServers` after exactly `shardCount` probes.  The code
violates this: the connection-failure handler reads `settings.REDIS_URLs`
while the `Settings` model defines `REDIS_URLS`, so the first failed ping
raises `AttributeError` before the index ever advances (the repo's unit
tests mask this by monkeypatching `db.settings` with a `MagicMock` carrying
a `REDIS_URLs` attribute).  Evaluated at a three-shard pool with every shard
unreachable: the call dies with the `AttributeError` after a single probe of
the primary index (index 2 for this key), not with
`NoAvailableRedisServers` after three probes; with all shards reachable the
primary is returned. -/
theorem get_redis_attribute_error_on_first_failed_probe :
    get_redis [false, false, false] "d689a52b-6abe-48cd-b1b3-4c3dc7518145"
        = (.error .attributeError, [2])
    ∧ get_redis [true, true, true] "d689a52b-6abe-48cd-b1b3-4c3dc7518145"
        = (.ok 2, [2])
    ∧ RedisFailure.attributeError ≠ RedisFailure.noAvailableRedisServers
    ∧ (get_redis [false, false, false]
        "d689a52b-6abe-48cd-b1b3-4c3dc7518145").2.length ≠ 3 := by decide

/-- C6: for a record `r` whose timestamp is fresh (newer than the stored
record for `u`, if any — stored records carry ISO-serialized timestamps),
`update_location` applies the write and `get_group_locations` of the
resulting state includes the record written for `u`, with latitude,
longitude and (serialized) timestamp preserved exactly. -/
theorem update_then_list_includes_record (st : GroupState) (u : String)
    (r : GroupUpdateLocationRequest)
    (hfresh : ∀ p, hget st.locations u = some p →
      ∃ s : Nat, p.timestamp = isoDatetimeStr s ∧ s < r.timestamp) :
    (update_location st u r).2 = .ok 1
    ∧ mkPayload u r ∈ get_group_locations (update_location st u r).1
    ∧ (mkPayload u r).user_uuid = u
    ∧ (mkPayload u r).latitude = r.latitude
    ∧ (mkPayload u r).longitude = r.longitude
    ∧ (mkPayload u r).timestamp = isoDatetimeStr r.timestamp := by
  have hcur : ∀ p, hget st.locations u = some p → tonumber p.timestamp = none := by
    intro p hp
    obtain ⟨s, hs, -⟩ := hfresh p hp
    rw [hs]
    exact tonumber_isoDatetimeStr s
  rw [update_location_writes st u r hcur]
  refine ⟨rfl, ?_, rfl, rfl, rfl, rfl⟩
  rw [get_group_locations, expireMember_locations, expireLocation_locations]
  exact mem_values_hset st.locations u (mkPayload u r)

/-- C6 witness: a fresh update (timestamp 100 over stored 50) lands in the
listing. -/
theorem update_then_list_includes_record_witness :
    (update_location
      { members := {"u1"},
        locations := [("u1",
          { user_uuid := "u1", longitude := 1, latitude := 2,
            timestamp := isoDatetimeStr 50 })],
        memberTTL := 600, locationTTL := 600 }
      "u1" { longitude := 106, latitude := 10, timestamp := 100 }).2 = .ok 1
    ∧ mkPayload "u1" { longitude := 106, latitude := 10, timestamp := 100 }
        ∈ get_group_locations (update_location
          { members := {"u1"},
            locations := [("u1",
              { user_uuid := "u1", longitude := 1, latitude := 2,
                timestamp := isoDatetimeStr 50 })],
            memberTTL := 600, locationTTL := 600 }
          "u1" { longitude := 106, latitude := 10, timestamp := 100 }).1 := by
  obtain ⟨h1, h2, -⟩ := update_then_list_includes_record
    { members := {"u1"},
      locations := [("u1",
        { user_uuid := "u1", longitude := 1, latitude := 2,
          timestamp := isoDatetimeStr 50 })],
      memberTTL := 600, locationTTL := 600 }
    "u1" { longitude := 106, latitude := 10, timestamp := 100 }
    (by
      intro p hp
      exact ⟨50, by rw [← Option.some.inj hp], by decide⟩)
  exact ⟨h1, h2⟩

/-- C7: `remove_member` reports `true` exactly when the user was in the
membership set, removes them from the set, deletes their location entry, and
leaves the group existing whenever another member remains. -/
theorem remove_member_spec (st : GroupState) (u : String) :
    ((remove_member st u).2 = true ↔ u ∈ st.members)
    ∧ is_member (remove_member st u).1 u = false
    ∧ hget (remove_member st u).1.locations u = none
    ∧ (∀ v ∈ st.members, v ≠ u → is_exists (remove_member st u).1 = true) := by
  refine ⟨?_, ?_, ?_, ?_⟩
  · simp [remove_member]
  · simp [remove_member, is_member, Finset.not_mem_erase]
  · exact hget_hdel_self st.locations u
  · intro v hv hvu
    have hne : st.members.erase u ≠ ∅ :=
      Finset.ne_empty_of_mem (Finset.mem_erase.2 ⟨hvu, hv⟩)
    simp [is_exists, remove_member, hne]

/-- C7 witness: removing `"u1"` from `{"u1", "u2"}`. -/
theorem remove_member_spec_witness :
    ((remove_member
        { members := {"u1", "u2"}, locations := [], memberTTL := 600,
          locationTTL := 600 } "u1").2 = true)
    ∧ is_member (remove_member
        { members := {"u1", "u2"}, locations := [], memberTTL := 600,
          locationTTL := 600 } "u1").1 "u1" = false
    ∧ is_exists (remove_member
        { members := {"u1", "u2"}, locations := [], memberTTL := 600,
          locationTTL := 600 } "u1").1 = true := by
  obtain ⟨a, b, c, d⟩ := remove_member_spec
    { members := {"u1", "u2"}, locations := [], memberTTL := 600,
      locationTTL := 600 } "u1"
  exact ⟨a.2 (by decide), b, d "u2" (by decide) (by decide)⟩

/-- C8: `add_member` is idempotent — a second call changes nothing, the
member occurs exactly once in the underlying multiset of the membership set,
and each call resets the TTL to the configured window. -/
theorem add_member_idempotent (st : GroupState) (u : String) :
    add_member (add_member st u) u = add_member st u
    ∧ Multiset.count u (add_member (add_member st u) u).members.val = 1
    ∧ (add_member st u).memberTTL = GROUP_LOCATION_TTL
    ∧ (add_member (add_member st u) u).memberTTL = GROUP_LOCATION_TTL := by
  have h1 : add_member st u =
      { st with members := insert u st.members,
                memberTTL := GROUP_LOCATION_TTL } := by
    rw [add_member, expireMember, if_neg (Finset.insert_ne_empty u st.members)]
  have h2 : add_member (add_member st u) u = add_member st u := by
    rw [h1, add_member, expireMember,
      if_neg (Finset.insert_ne_empty u (insert u st.members))]
    simp [Finset.insert_idem]
  refine ⟨h2, ?_, ?_, ?_⟩
  · rw [h2, h1]
    exact Multiset.count_eq_one_of_mem (Finset.nodup _)
      (Finset.mem_insert_self u st.members)
  · rw [h1]
  · rw [h2, h1]

/-- C9: `broadcast` attempts a send to every subscriber in the snapshot
(regardless of earlier failures) and the registry afterwards drops exactly
the subscribers whose send failed. -/
theorem broadcast_best_effort {α : Type} [DecidableEq α]
    (conns : List α) (sendOk : α → Bool) (h : conns.Nodup) :
    broadcast conns sendOk = (conns, conns.filter sendOk) := by
  rw [broadcast]
  have h1 := broadcastAux_fst sendOk conns conns
  have h2 := broadcastAux_snd sendOk conns conns h
  have h3 : conns.filter (fun x => sendOk x || !(conns.contains x))
      = conns.filter sendOk := by
    refine List.filter_congr ?_
    intro x hx
    have hc : conns.contains x = true := by
      simpa using hx
    rw [hc]
    simp
  exact Prod.ext h1 (h2.trans h3)

/-- C9 witness: a failing middle subscriber is dropped, the others are kept
and attempted. -/
theorem broadcast_best_effort_witness :
    broadcast [1, 2, 3] (fun x => decide (x % 2 = 1)) = ([1, 2, 3], [1, 3]) := by
  rw [broadcast_best_effort [1, 2, 3] (fun x => decide (x % 2 = 1)) (by decide)]
  decide

/-- C10: `get_server_index` fails with `ValueError` ("Number of servers must
be at least 1") precisely when `num_servers < 1`, and for `num_servers ≥ 1`
returns an index in `[0, num_servers)`; as a pure function of `(key, n)` it
is deterministic by construction. -/
theorem get_server_index_spec (key : String) (n : Int) :
    (n < 1 → get_server_index key n = .error "Number of servers must be at least 1")
    ∧ (1 ≤ n → ∃ i : Int, get_server_index key n = .ok i ∧ 0 ≤ i ∧ i < n) := by
  constructor
  · intro h
    rw [get_server_index, if_pos h]
  · intro h
    rw [get_server_index, if_neg (by omega)]
    refine ⟨_, rfl, ?_, ?_⟩
    · exact Int.emod_nonneg _ (by omega)
    · exact Int.emod_lt_of_pos _ (by omega)

/-- C10 witness: a zero-size pool errors; three servers give an index below
three. -/
theorem get_server_index_spec_witness :
    get_server_index "g" 0 = .error "Number of servers must be at least 1"
    ∧ ∃ i : Int, get_server_index "g" 3 = .ok i ∧ 0 ≤ i ∧ i < 3 :=
  ⟨(get_server_index_spec "g" 0).1 (by decide),
    (get_server_index_spec "g" 3).2 (by decide)⟩

end LocationTracking
